import Mathlib

/-!
Shallow embedding of `src/src/services/documentService.ts` (the document
ingestion, classification and store component of the pdf-packet repository),
together with theorems settling the specification claims about it.

Modelling conventions:
* JavaScript strings are Lean `String`s; content bytes read from a file are
  modelled as the characters `String.fromCharCode` would produce from them.
* The `Map<string, Document>` is an association list with unique keys,
  `mapSet` replacing in place and `mapDelete` removing the keyed entry,
  exactly the visible semantics of `Map.set` / `Map.delete` / `Map.get`.
* Fallible host operations (reading file bytes, `FileReader`, `fetch`,
  `localStorage` access) are explicit outcome parameters of `Except` or
  outcome type, so every code path of the source is a Lean branch.
-/

namespace PdfPacket

/-- Document type union from `@/types` as consumed by `documentService.ts`:
the string literals `'TDS' | 'ESR' | 'MSDS' | 'LEED' | 'Installation' |
'warranty' | 'Acoustic' | 'PartSpec'`. -/
inductive DocumentType where
  | TDS
  | ESR
  | MSDS
  | LEED
  | Installation
  | warranty
  | Acoustic
  | PartSpec
deriving DecidableEq

/-- The string value of a `DocumentType` literal, as interpolated by the
template literal `` `${type} Document` `` in `uploadDocument`. -/
def docTypeStr : DocumentType → String
  | .TDS => "TDS"
  | .ESR => "ESR"
  | .MSDS => "MSDS"
  | .LEED => "LEED"
  | .Installation => "Installation"
  | .warranty => "warranty"
  | .Acoustic => "Acoustic"
  | .PartSpec => "PartSpec"

/-- The `Document` record shape used by the service (`@/types`): identifier,
display name, description, original filename, content reference (`url`),
byte size, document type, required flag, product list and product category. -/
structure Document where
  id : String
  name : String
  description : String
  filename : String
  url : String
  size : Nat
  type : DocumentType
  required : Bool
  products : List String
  productType : String
deriving DecidableEq

/-- A candidate upload, as `validatePDF` and `uploadDocument` observe it:
the filename, the declared MIME type (`file.type`), the byte size
(`file.size`), the outcome of reading its content bytes
(`file.slice(0, 5).arrayBuffer()` reads a prefix of these; `.error` models an
I/O failure of that read), and the outcome of `FileReader.readAsDataURL`
(`.ok` carries the resulting data-URL string, `.error` a reader failure). -/
structure FFile where
  name : String
  mimeType : String
  size : Nat
  readBytes : Except Unit (List Char)
  readAsDataURL : Except Unit String

/-- Result record of `validatePDF`: `{ valid: boolean; error?: string }`. -/
structure ValidationResult where
  valid : Bool
  error : Option String
deriving DecidableEq

/-- ASCII lower-casing, the behaviour of `filename.toLowerCase()` on the
ASCII filenames this service handles. -/
def strToLower (s : String) : String := String.mk (s.data.map Char.toLower)

/-- Occurrence of `needle` as a contiguous sublist, on character lists. -/
def subOccurs (needle : List Char) : List Char → Bool
  | [] => needle.isEmpty
  | c :: rest => needle.isPrefixOf (c :: rest) || subOccurs needle rest

/-- JavaScript `s.includes(sub)`: substring occurrence test. -/
def strIncludes (s sub : String) : Bool := subOccurs sub.data s.data

/-- JavaScript `s.startsWith(p)`. -/
def strStartsWith (s p : String) : Bool := p.data.isPrefixOf s.data

/-- JavaScript `s.split(sep)` for a one-character separator, on char lists. -/
def splitChars (sep : Char) : List Char → List (List Char)
  | [] => [[]]
  | c :: rest =>
    match splitChars sep rest with
    | [] => [[]]
    | g :: gs => if c = sep then [] :: g :: gs else (c :: g) :: gs

/-- JavaScript `s.split(sep)` for a one-character separator. -/
def strSplit (s : String) (sep : Char) : List String :=
  (splitChars sep s.data).map String.mk

/-- JavaScript `s.split(',')[1]`; `none` models the `undefined` obtained when
the string holds no comma. -/
def splitComma1 (s : String) : Option String := (strSplit s ',').get? 1

/-- `const MAX_SZ = 50 * 1024 * 1024` (the validator's 50 MiB bound). -/
def MAX_SIZE : Nat := 50 * 1024 * 1024

/-- `validatePDF` (documentService.ts lines 52-79): declared MIME type check,
maximum size check, minimum size check, then the `%PDF` signature check on the
5 sliced bytes, with a read failure caught as `'Failed to read file'`. -/
def validatePDF (file : FFile) : ValidationResult :=
  if file.mimeType ≠ "application/pdf" then
    { valid := false, error := some "File must be a PDF document" }
  else if MAX_SIZE < file.size then
    { valid := false, error := some "File size exceeds 50MB limit" }
  else if file.size < 1024 then
    { valid := false, error := some "File is too small to be a valid PDF" }
  else
    match file.readBytes with
    | .error _ => { valid := false, error := some "Failed to read file" }
    | .ok bytes =>
      if strStartsWith (String.mk (bytes.take 5)) "%PDF" then
        { valid := true, error := none }
      else
        { valid := false, error := some "File does not appear to be a valid PDF" }

/-- `detectDocumentType` (lines 204-217): lower-case, then first substring
match in the fixed rule order, defaulting to `TDS`. -/
def detectDocumentType (filename : String) : DocumentType :=
  let lower := strToLower filename
  if strIncludes lower "tds" || strIncludes lower "technical data" then .TDS
  else if strIncludes lower "esr" || strIncludes lower "evaluation report" then .ESR
  else if strIncludes lower "msds" || strIncludes lower "safety data" then .MSDS
  else if strIncludes lower "leed" then .LEED
  else if strIncludes lower "installation" || strIncludes lower "install" then .Installation
  else if strIncludes lower "warranty" then .warranty
  else if strIncludes lower "acoustic" || strIncludes lower "esl" then .Acoustic
  else if strIncludes lower "spec" || strIncludes lower "3-part" then .PartSpec
  else .TDS

/-- The `typeMap` of `extractDocumentName` (lines 222-231). -/
def typeMap : DocumentType → String
  | .TDS => "Technical Data Sheet"
  | .ESR => "Evaluation Report"
  | .MSDS => "Material Safety Data Sheet"
  | .LEED => "LEED Credit Guide"
  | .Installation => "Installation Guide"
  | .warranty => "Limited Warranty"
  | .Acoustic => "Acoustical Performance"
  | .PartSpec => "3-Part Specifications"

/-- The `filename.replace(/\.pdf$/i, '')` step of `extractDocumentName`:
strip one trailing `.pdf`, case-insensitively. -/
def stripPdfExt (filename : String) : String :=
  if ".pdf".data.isSuffixOf (strToLower filename).data then
    String.mk (filename.data.take (filename.data.length - 4))
  else filename

/-- `extractDocumentName` (lines 219-234): the stripped filename is the
fallback of `typeMap[type] || name`, dead whenever the label is non-empty. -/
def extractDocumentName (filename : String) (t : DocumentType) : String :=
  let name := stripPdfExt filename
  let label := typeMap t
  if label = "" then name else label

/-- The spec's `classify(filename) -> (DocumentType, DisplayName)`, the
composition of `detectDocumentType` and `extractDocumentName` exactly as
`uploadDocument` composes them (lines 107-108). -/
def classify (filename : String) : DocumentType × String :=
  let t := detectDocumentType filename
  (t, extractDocumentName filename t)

/-- The in-memory `Map<string, Document>` of the service. -/
abbrev Store := List (String × Document)

/-- `Map.get(k)`, with `none` for the `|| null` of `getDocument`. -/
def mapGet : Store → String → Option Document
  | [], _ => none
  | (k, v) :: rest, k' => if k = k' then some v else mapGet rest k'

/-- `Map.set(k, v)`: replace the entry keyed `k` in place, else append. -/
def mapSet : Store → String → Document → Store
  | [], k, v => [(k, v)]
  | (k', v') :: rest, k, v =>
    if k' = k then (k, v) :: rest else (k', v') :: mapSet rest k v

/-- `Map.delete(k)`: remove the entry keyed `k`. -/
def mapDelete : Store → String → Store
  | [], _ => []
  | (k', v') :: rest, k => if k' = k then rest else (k', v') :: mapDelete rest k

/-- The key list of the store. -/
def keys (m : Store) : List String := m.map Prod.fst

/-- Outcome of a raw `localStorage` access. -/
inductive StorageOutcome where
  | success
  | failure
deriving DecidableEq

/-- Error-handling observation of a call: whether `console.error` ran, and
the message of the exception it let escape, if any. -/
structure CallResult where
  logged : Bool
  thrown : Option String
deriving DecidableEq

/-- `saveToLocalStorage` (lines 25-32): the whole body sits in a
`try { ... } catch (error) { console.error(...) }`, so a write failure is
logged and nothing ever escapes. -/
def saveToLocalStorage (writeOutcome : StorageOutcome) : CallResult :=
  match writeOutcome with
  | .success => { logged := false, thrown := none }
  | .failure => { logged := true, thrown := none }

/-- `loadFromLocalStorage` (lines 11-23): `stored = none` models a missing
`'documents'` key, `some (.error ())` a read/parse failure (caught and
logged), `some (.ok docs)` a parsed snapshot inserted entry by entry via
`this.documents.set(doc.id, doc)`. -/
def loadFromLocalStorage (stored : Option (Except Unit (List Document))) :
    Store × CallResult :=
  match stored with
  | none => ([], { logged := false, thrown := none })
  | some (.error _) => ([], { logged := true, thrown := none })
  | some (.ok docs) =>
    (docs.foldl (fun m d => mapSet m d.id d) [], { logged := false, thrown := none })

/-- `getDocument` (lines 48-50). -/
def getDocument (docs : Store) (id : String) : Option Document := mapGet docs id

/-- The `Document` record literal built by `uploadDocument` (lines 110-121)
once the `FileReader` has produced `dataURL`: `fileData` is
`base64.split(',')[1]` (`"undefined"` matching the template-literal rendering
of a missing part), `type` and `name` come from the classifier, and the
generated `` `doc_${Date.now()}_${...}` `` identifier is `genId`. -/
def mkUploadDoc (file : FFile) (productType genId dataURL : String) : Document :=
  let fileData := (splitComma1 dataURL).getD "undefined"
  let t := detectDocumentType file.name
  let docName := extractDocumentName file.name t
  { id := genId,
    name := docName,
    description := docTypeStr t ++ " Document",
    filename := file.name,
    url := "data:application/pdf;base64," ++ fileData,
    size := file.size,
    type := t,
    required := false,
    products := [],
    productType := productType }

/-- `uploadDocument` (lines 81-133), as a transformer of the store state: a
`FileReader` failure is rethrown as `'Failed to upload document'` (a
`ProgressEvent` is not an `Error`); `.error` results leave the map
untouched. -/
def uploadDocument (docs : Store) (file : FFile) (productType : String)
    (genId : String) : Except String Document × Store :=
  let validation := validatePDF file
  if validation.valid = false then
    (.error (validation.error.getD "Invalid PDF file"), docs)
  else
    match file.readAsDataURL with
    | .error _ => (.error "Failed to upload document", docs)
    | .ok dataURL =>
      let doc := mkUploadDoc file productType genId dataURL
      (.ok doc, mapSet docs doc.id doc)

/-- `Partial<Document>`: each field optionally supplied. -/
structure UpdatePayload where
  id : Option String := none
  name : Option String := none
  description : Option String := none
  filename : Option String := none
  url : Option String := none
  size : Option Nat := none
  type : Option DocumentType := none
  required : Option Bool := none
  products : Option (List String) := none
  productType : Option String := none
deriving DecidableEq

/-- The spread merge `{ ...existing, ...updates }`. -/
def mergeUpdates (existing : Document) (u : UpdatePayload) : Document :=
  { id := u.id.getD existing.id,
    name := u.name.getD existing.name,
    description := u.description.getD existing.description,
    filename := u.filename.getD existing.filename,
    url := u.url.getD existing.url,
    size := u.size.getD existing.size,
    type := u.type.getD existing.type,
    required := u.required.getD existing.required,
    products := u.products.getD existing.products,
    productType := u.productType.getD existing.productType }

/-- `updateDocument` (lines 135-151): not-found throws before any mutation;
otherwise the merge is followed by re-asserting `id`, `productType` and `url`
from the existing record, and the result is stored under the same key. -/
def updateDocument (docs : Store) (id : String) (u : UpdatePayload) :
    Except String Unit × Store :=
  match mapGet docs id with
  | none => (.error "Document not found", docs)
  | some existing =>
    let updated : Document :=
      { mergeUpdates existing u with
        id := existing.id, productType := existing.productType, url := existing.url }
    (.ok (), mapSet docs id updated)

/-- `deleteDocument` (lines 153-160): not-found throws before any mutation. -/
def deleteDocument (docs : Store) (id : String) : Except String Unit × Store :=
  if (mapGet docs id).isSome then (.ok (), mapDelete docs id)
  else (.error "Document not found", docs)

/-- `deleteDocument` observed together with its final
`this.saveToLocalStorage()` call: the save runs only after a successful
removal, and its outcome never alters the method's result or the map. -/
def deleteDocumentWithPersistence (docs : Store) (id : String)
    (writeOutcome : StorageOutcome) : (Except String Unit × Store) × CallResult :=
  match deleteDocument docs id with
  | (.ok r, rest) => ((.ok r, rest), saveToLocalStorage writeOutcome)
  | (.error e, rest) => ((.error e, rest), { logged := false, thrown := none })

/-- `exportDocumentAsBase64` (lines 162-188). `fetchOutcome` models
`await fetch(doc.url)` plus `await response.blob()` — both inside the `try`,
so their failure is caught and yields `null`. `readerOutcome` models the
returned `FileReader` promise; the `return new Promise(...)` is not awaited
inside the `try`, so a reader rejection escapes to the caller. -/
def exportDocumentAsBase64 (docs : Store) (id : String)
    (fetchOutcome : Except Unit String) (readerOutcome : String → Except Unit String) :
    Except Unit (Option String) :=
  match mapGet docs id with
  | none => .ok none
  | some doc =>
    if doc.url = "" then .ok none
    else if strStartsWith doc.url "data:" then .ok (splitComma1 doc.url)
    else
      match fetchOutcome with
      | .error _ => .ok none
      | .ok blob =>
        match readerOutcome blob with
        | .error e => .error e
        | .ok dataURL => .ok (splitComma1 dataURL)

/-- A mutating store operation, for reachability statements. -/
inductive StoreOp where
  | create (file : FFile) (productType : String) (genId : String)
  | update (id : String) (u : UpdatePayload)
  | delete (id : String)

/-- The store state after one operation (a thrown error leaves it as-is). -/
def applyOp (docs : Store) : StoreOp → Store
  | .create file productType genId => (uploadDocument docs file productType genId).2
  | .update id u => (updateDocument docs id u).2
  | .delete id => (deleteDocument docs id).2

/-- The store state after a sequence of operations. -/
def applyOps (docs : Store) (ops : List StoreOp) : Store := ops.foldl applyOp docs

/-- Content bytes of a well-formed small PDF, as characters. -/
def pdfBytes : List Char := "%PDF-1.4 sample".data

/-- A file with a non-PDF declared MIME type. -/
def w1fileBadMime : FFile :=
  ⟨"a-tds.pdf", "text/plain", 2048, .ok pdfBytes, .ok "data:application/pdf;base64,QUJD"⟩

/-- A declared PDF one byte over the 50 MiB bound. -/
def w1fileTooLarge : FFile :=
  ⟨"a-tds.pdf", "application/pdf", 52428801, .ok pdfBytes,
    .ok "data:application/pdf;base64,QUJD"⟩

/-- A declared PDF below the 1 KiB bound. -/
def w1fileTooSmall : FFile :=
  ⟨"a-tds.pdf", "application/pdf", 100, .ok pdfBytes,
    .ok "data:application/pdf;base64,QUJD"⟩

/-- A declared PDF whose content-byte read fails. -/
def w1fileUnreadable : FFile :=
  ⟨"a-tds.pdf", "application/pdf", 2048, .error (),
    .ok "data:application/pdf;base64,QUJD"⟩

/-- A declared PDF whose content does not carry the `%PDF` signature. -/
def w1fileBadSig : FFile :=
  ⟨"a-tds.pdf", "application/pdf", 2048, .ok "hello world pdf".data,
    .ok "data:application/pdf;base64,QUJD"⟩

/-- A declared PDF passing every validation rule. -/
def w1fileGood : FFile :=
  ⟨"a-tds.pdf", "application/pdf", 2048, .ok pdfBytes,
    .ok "data:application/pdf;base64,QUJD"⟩

/-- A standard PDF upload: its first five content bytes are `%PDF-`, which is
not the literal four-character string `%PDF`. -/
def c3file : FFile :=
  ⟨"a-tds.pdf", "application/pdf", 2048, .ok pdfBytes, .ok "data:application/pdf;base64,QUJD"⟩

/-- A stored sample record, as an accepted upload would have produced it. -/
def sampleDoc : Document :=
  { id := "doc_1",
    name := "Technical Data Sheet",
    description := "TDS Document",
    filename := "a-tds.pdf",
    url := "data:application/pdf;base64,QUJD",
    size := 2048,
    type := .TDS,
    required := false,
    products := [],
    productType := "structural-floor" }

/-- A one-record store holding `sampleDoc` under its own identifier. -/
def sampleStore : Store := [("doc_1", sampleDoc)]

/-- An update payload that tries to override the three protected fields. -/
def w5payload : UpdatePayload :=
  { id := some "doc_999",
    name := some "Renamed",
    url := some "data:text/plain;base64,WFla",
    productType := some "other" }

/-- A store exercising the three export shapes: an inline `data:` reference,
an empty reference, and a remote reference. -/
def w8store : Store :=
  [("doc_1", sampleDoc),
   ("doc_empty", { sampleDoc with id := "doc_empty", url := "" }),
   ("doc_remote", { sampleDoc with id := "doc_remote", url := "https://cdn.example/x.pdf" })]

/-- The record a concrete successful upload of `w1fileGood` constructs. -/
def w9doc : Document := mkUploadDoc w1fileGood "underlayment" "doc_9"
  "data:application/pdf;base64,QUJD"

/-- The representation invariant of the service's map: keys are pairwise
distinct (as in any `Map`) and each entry is keyed by its record's `id`. -/
def StoreInv (m : Store) : Prop :=
  (keys m).Nodup ∧ ∀ p ∈ m, p.1 = p.2.id

theorem mapGet_mapSet_self (m : Store) (k : String) (v : Document) :
    mapGet (mapSet m k v) k = some v := by
  induction m with
  | nil => simp [mapSet, mapGet]
  | cons p rest ih =>
    obtain ⟨k', v'⟩ := p
    by_cases h : k' = k
    · simp [mapSet, h, mapGet]
    · simp [mapSet, h, mapGet, ih]

theorem mem_of_mapSet {m : Store} {k : String} {v : Document} {p : String × Document}
    (hp : p ∈ mapSet m k v) : p = (k, v) ∨ p ∈ m := by
  induction m with
  | nil =>
    simp only [mapSet, List.mem_singleton] at hp
    exact Or.inl hp
  | cons q rest ih =>
    obtain ⟨k', v'⟩ := q
    by_cases h : k' = k
    · simp [mapSet, h] at hp
      rcases hp with h1 | h1
      · exact Or.inl (by simp [h1])
      · exact Or.inr (List.mem_cons_of_mem _ h1)
    · simp only [mapSet, if_neg h, List.mem_cons] at hp
      rcases hp with h1 | h1
      · exact Or.inr (by simp [h1])
      · rcases ih h1 with h2 | h2
        · exact Or.inl h2
        · exact Or.inr (List.mem_cons_of_mem _ h2)

theorem mem_keys_mapSet {m : Store} {k a : String} {v : Document}
    (ha : a ∈ keys (mapSet m k v)) : a ∈ keys m ∨ a = k := by
  induction m with
  | nil =>
    simp only [mapSet, keys, List.map_cons, List.map_nil, List.mem_singleton] at ha
    exact Or.inr ha
  | cons q rest ih =>
    obtain ⟨k', v'⟩ := q
    by_cases h : k' = k
    · simp only [mapSet, if_pos h, keys, List.map_cons, List.mem_cons] at ha
      rcases ha with h1 | h1
      · exact Or.inr h1
      · exact Or.inl (by simp [keys, h1])
    · simp only [mapSet, if_neg h, keys, List.map_cons, List.mem_cons] at ha
      rcases ha with h1 | h1
      · exact Or.inl (by simp [keys, h1])
      · rcases ih h1 with h2 | h2
        · exact Or.inl (by simp [keys] at h2 ⊢; exact Or.inr h2)
        · exact Or.inr h2

theorem nodup_keys_mapSet {m : Store} (h : (keys m).Nodup) (k : String) (v : Document) :
    (keys (mapSet m k v)).Nodup := by
  induction m with
  | nil => simp [mapSet, keys]
  | cons q rest ih =>
    obtain ⟨k', v'⟩ := q
    simp only [keys, List.map_cons, List.nodup_cons] at h
    by_cases hk : k' = k
    · simp only [mapSet, if_pos hk, keys, List.map_cons, List.nodup_cons]
      exact ⟨by rw [← hk]; exact h.1, h.2⟩
    · simp only [mapSet, if_neg hk, keys, List.map_cons, List.nodup_cons]
      refine ⟨fun hmem => ?_, ih h.2⟩
      rcases mem_keys_mapSet hmem with h1 | h1
      · exact h.1 h1
      · exact hk h1

theorem mem_of_mapDelete {m : Store} {k : String} {p : String × Document}
    (hp : p ∈ mapDelete m k) : p ∈ m := by
  induction m with
  | nil => simp [mapDelete] at hp
  | cons q rest ih =>
    obtain ⟨k', v'⟩ := q
    by_cases h : k' = k
    · simp only [mapDelete, if_pos h] at hp
      exact List.mem_cons_of_mem _ hp
    · simp only [mapDelete, if_neg h, List.mem_cons] at hp
      rcases hp with h1 | h1
      · exact by simp [h1]
      · exact List.mem_cons_of_mem _ (ih h1)

theorem mem_keys_mapDelete {m : Store} {k a : String}
    (ha : a ∈ keys (mapDelete m k)) : a ∈ keys m := by
  simp only [keys, List.mem_map] at ha ⊢
  obtain ⟨p, hp, hpa⟩ := ha
  exact ⟨p, mem_of_mapDelete hp, hpa⟩

theorem nodup_keys_mapDelete {m : Store} (h : (keys m).Nodup) (k : String) :
    (keys (mapDelete m k)).Nodup := by
  induction m with
  | nil => simp [mapDelete, keys]
  | cons q rest ih =>
    obtain ⟨k', v'⟩ := q
    simp only [keys, List.map_cons, List.nodup_cons] at h
    by_cases hk : k' = k
    · simp only [mapDelete, if_pos hk]
      exact h.2
    · simp only [mapDelete, if_neg hk, keys, List.map_cons, List.nodup_cons]
      exact ⟨fun hmem => h.1 (mem_keys_mapDelete hmem), ih h.2⟩

theorem mapGet_eq_none_of_not_mem_keys {m : Store} {k : String} (h : k ∉ keys m) :
    mapGet m k = none := by
  induction m with
  | nil => simp [mapGet]
  | cons q rest ih =>
    obtain ⟨k', v'⟩ := q
    simp only [keys, List.map_cons, List.mem_cons, not_or] at h
    have hne : k' ≠ k := fun he => h.1 he.symm
    rw [show mapGet ((k', v') :: rest) k = if k' = k then some v' else mapGet rest k from rfl,
      if_neg hne]
    exact ih h.2

theorem mapGet_eq_some_of_mem {m : Store} (hnd : (keys m).Nodup) {k : String}
    {v : Document} (hm : (k, v) ∈ m) : mapGet m k = some v := by
  induction m with
  | nil => simp at hm
  | cons q rest ih =>
    obtain ⟨k', v'⟩ := q
    simp only [keys, List.map_cons, List.nodup_cons] at hnd
    rcases List.mem_cons.mp hm with h1 | h1
    · obtain ⟨hk, hv⟩ := Prod.mk.injEq .. ▸ h1.symm
      simp [mapGet, hk, hv]
    · have hne : k' ≠ k := by
        intro he
        exact hnd.1 (he ▸ (by simp [keys]; exact ⟨v, h1⟩))
      simp only [mapGet, if_neg hne]
      exact ih hnd.2 h1

theorem mem_of_mapGet_eq_some {m : Store} {k : String} {v : Document}
    (h : mapGet m k = some v) : (k, v) ∈ m := by
  induction m with
  | nil => simp [mapGet] at h
  | cons q rest ih =>
    obtain ⟨k', v'⟩ := q
    by_cases hk : k' = k
    · simp only [mapGet, if_pos hk, Option.some.injEq] at h
      simp [hk, h]
    · simp only [mapGet, if_neg hk] at h
      exact List.mem_cons_of_mem _ (ih h)

theorem mapGet_mapDelete_self {m : Store} (hnd : (keys m).Nodup) (k : String) :
    mapGet (mapDelete m k) k = none := by
  induction m with
  | nil => simp [mapDelete, mapGet]
  | cons q rest ih =>
    obtain ⟨k', v'⟩ := q
    simp only [keys, List.map_cons, List.nodup_cons] at hnd
    by_cases hk : k' = k
    · simp only [mapDelete, if_pos hk]
      exact mapGet_eq_none_of_not_mem_keys (hk ▸ hnd.1)
    · simp only [mapDelete, if_neg hk, mapGet, if_neg hk]
      exact ih hnd.2

theorem storeInv_mapSet {m : Store} (h : StoreInv m) {k : String} {v : Document}
    (hk : k = v.id) : StoreInv (mapSet m k v) := by
  refine ⟨nodup_keys_mapSet h.1 k v, fun p hp => ?_⟩
  rcases mem_of_mapSet hp with h1 | h1
  · simp [h1, hk]
  · exact h.2 p h1

theorem storeInv_mapDelete {m : Store} (h : StoreInv m) (k : String) :
    StoreInv (mapDelete m k) :=
  ⟨nodup_keys_mapDelete h.1 k, fun p hp => h.2 p (mem_of_mapDelete hp)⟩

theorem uploadDocument_snd (docs : Store) (file : FFile) (pt gid : String) :
    (uploadDocument docs file pt gid).2 = docs ∨
    ∃ doc : Document, doc.id = gid ∧
      (uploadDocument docs file pt gid).2 = mapSet docs gid doc := by
  unfold uploadDocument
  by_cases hv : (validatePDF file).valid = false
  · simp [hv]
  · cases hr : file.readAsDataURL with
    | error e => simp [hv, hr]
    | ok dataURL =>
      right
      refine ⟨mkUploadDoc file pt gid dataURL, rfl, ?_⟩
      simp [hv, hr]
      rfl

theorem updateDocument_snd (docs : Store) (id : String) (u : UpdatePayload) :
    (updateDocument docs id u).2 = docs ∨
    ∃ existing updated : Document, mapGet docs id = some existing ∧
      updated.id = existing.id ∧ (updateDocument docs id u).2 = mapSet docs id updated := by
  unfold updateDocument
  cases hg : mapGet docs id with
  | none => simp
  | some existing =>
    right
    exact ⟨existing,
      { mergeUpdates existing u with
        id := existing.id, productType := existing.productType, url := existing.url },
      rfl, rfl, rfl⟩

theorem deleteDocument_snd (docs : Store) (id : String) :
    (deleteDocument docs id).2 = docs ∨ (deleteDocument docs id).2 = mapDelete docs id := by
  unfold deleteDocument
  by_cases h : (mapGet docs id).isSome
  · simp [h]
  · simp [h]

theorem storeInv_applyOp {m : Store} (h : StoreInv m) (op : StoreOp) :
    StoreInv (applyOp m op) := by
  cases op with
  | create file pt gid =>
    show StoreInv (uploadDocument m file pt gid).2
    rcases uploadDocument_snd m file pt gid with h1 | ⟨doc, hid, h1⟩
    · rw [h1]; exact h
    · rw [h1]; exact storeInv_mapSet h hid.symm
  | update id u =>
    show StoreInv (updateDocument m id u).2
    rcases updateDocument_snd m id u with h1 | ⟨existing, updated, hg, hid, h1⟩
    · rw [h1]; exact h
    · rw [h1]
      have hmem := mem_of_mapGet_eq_some hg
      have hkey : id = existing.id := h.2 (id, existing) hmem
      exact storeInv_mapSet h (by rw [hid, ← hkey])
  | delete id =>
    show StoreInv (deleteDocument m id).2
    rcases deleteDocument_snd m id with h1 | h1
    · rw [h1]; exact h
    · rw [h1]; exact storeInv_mapDelete h id

theorem storeInv_applyOps {m : Store} (h : StoreInv m) (ops : List StoreOp) :
    StoreInv (applyOps m ops) := by
  induction ops generalizing m with
  | nil => exact h
  | cons op rest ih =>
    show StoreInv (applyOps (applyOp m op) rest)
    exact ih (storeInv_applyOp h op)

theorem storeInv_nil : StoreInv [] := ⟨by simp [keys], by simp⟩

theorem storeInv_insertFold (ds : List Document) :
    ∀ acc : Store, StoreInv acc →
      StoreInv (ds.foldl (fun m d => mapSet m d.id d) acc) := by
  induction ds with
  | nil => intro acc h; exact h
  | cons d rest ih =>
    intro acc h
    exact ih (mapSet acc d.id d) (storeInv_mapSet h rfl)

theorem storeInv_load (stored : Option (Except Unit (List Document))) :
    StoreInv (loadFromLocalStorage stored).1 := by
  cases stored with
  | none => exact storeInv_nil
  | some r =>
    cases r with
    | error e => exact storeInv_nil
    | ok docs => exact storeInv_insertFold docs [] storeInv_nil

theorem isPrefixOf_take (p : List Char) :
    ∀ (l : List Char) (n : Nat), p.length ≤ n →
      p.isPrefixOf (l.take n) = p.isPrefixOf l := by
  induction p with
  | nil => intro l n h; simp [List.isPrefixOf]
  | cons a as ih =>
    intro l n h
    cases l with
    | nil => simp
    | cons b bs =>
      cases n with
      | zero => simp at h
      | succ m =>
        simp only [List.take_succ_cons, List.isPrefixOf]
        rw [ih bs m (by simpa using h)]

/-- C1: `validatePDF` applies its rules in the fixed order (1) declared MIME
type, (2) maximum size, (3) minimum size, (4) content signature, and the
first failing rule determines the single rejection reason; in particular a
file whose declared content type is not the PDF MIME type is rejected with
the not-a-PDF reason regardless of its size or content bytes. -/
theorem c1_validate_rule_order (file : FFile) :
    (file.mimeType ≠ "application/pdf" →
      validatePDF file = { valid := false, error := some "File must be a PDF document" }) ∧
    (file.mimeType = "application/pdf" → MAX_SIZE < file.size →
      validatePDF file = { valid := false, error := some "File size exceeds 50MB limit" }) ∧
    (file.mimeType = "application/pdf" → file.size ≤ MAX_SIZE → file.size < 1024 →
      validatePDF file =
        { valid := false, error := some "File is too small to be a valid PDF" }) ∧
    (file.mimeType = "application/pdf" → file.size ≤ MAX_SIZE → 1024 ≤ file.size →
      file.readBytes = .error () →
      validatePDF file = { valid := false, error := some "Failed to read file" }) ∧
    (∀ bytes : List Char, file.mimeType = "application/pdf" → file.size ≤ MAX_SIZE →
      1024 ≤ file.size → file.readBytes = .ok bytes →
      strStartsWith (String.mk (bytes.take 5)) "%PDF" = false →
      validatePDF file =
        { valid := false, error := some "File does not appear to be a valid PDF" }) ∧
    (∀ bytes : List Char, file.mimeType = "application/pdf" → file.size ≤ MAX_SIZE →
      1024 ≤ file.size → file.readBytes = .ok bytes →
      strStartsWith (String.mk (bytes.take 5)) "%PDF" = true →
      validatePDF file = { valid := true, error := none }) := by
  refine ⟨fun h1 => ?_, fun h1 h2 => ?_, fun h1 h2 h3 => ?_, fun h1 h2 h3 h4 => ?_,
    fun bytes h1 h2 h3 h4 h5 => ?_, fun bytes h1 h2 h3 h4 h5 => ?_⟩
  · simp [validatePDF, h1]
  · simp [validatePDF, h1, h2]
  · simp [validatePDF, h1, Nat.not_lt.mpr h2, h3]
  · simp [validatePDF, h1, Nat.not_lt.mpr h2, Nat.not_lt.mpr h3, h4]
  · simp [validatePDF, h1, Nat.not_lt.mpr h2, Nat.not_lt.mpr h3, h4, h5]
  · simp [validatePDF, h1, Nat.not_lt.mpr h2, Nat.not_lt.mpr h3, h4, h5]

/-- C1 witness: the theorem applied at one concrete file per rule. -/
theorem c1_validate_rule_order_witness :
    validatePDF w1fileBadMime =
      { valid := false, error := some "File must be a PDF document" } ∧
    validatePDF w1fileTooLarge =
      { valid := false, error := some "File size exceeds 50MB limit" } ∧
    validatePDF w1fileTooSmall =
      { valid := false, error := some "File is too small to be a valid PDF" } ∧
    validatePDF w1fileUnreadable =
      { valid := false, error := some "Failed to read file" } ∧
    validatePDF w1fileBadSig =
      { valid := false, error := some "File does not appear to be a valid PDF" } ∧
    validatePDF w1fileGood = { valid := true, error := none } :=
  ⟨(c1_validate_rule_order w1fileBadMime).1 (by decide),
   (c1_validate_rule_order w1fileTooLarge).2.1 rfl (by decide),
   (c1_validate_rule_order w1fileTooSmall).2.2.1 rfl (by decide) (by decide),
   (c1_validate_rule_order w1fileUnreadable).2.2.2.1 rfl (by decide) (by decide) rfl,
   (c1_validate_rule_order w1fileBadSig).2.2.2.2.1 _ rfl (by decide) (by decide) rfl
     (by decide),
   (c1_validate_rule_order w1fileGood).2.2.2.2.2 _ rfl (by decide) (by decide) rfl
     (by decide)⟩

/-- C2: with the PDF MIME type declared, `validatePDF` rejects with the
too-large reason exactly when the byte size exceeds 50 MiB and with the
too-small reason exactly when the byte size is below 1 KiB; a file of exactly
50 MiB and a file of exactly 1 KiB both pass these two size checks. -/
theorem c2_validate_size_bounds (file : FFile)
    (hmime : file.mimeType = "application/pdf") :
    ((validatePDF file).error = some "File size exceeds 50MB limit" ↔
      50 * 1024 * 1024 < file.size) ∧
    ((validatePDF file).error = some "File is too small to be a valid PDF" ↔
      file.size < 1024) ∧
    (file.size = 50 * 1024 * 1024 ∨ file.size = 1024 →
      (validatePDF file).error ≠ some "File size exceeds 50MB limit" ∧
      (validatePDF file).error ≠ some "File is too small to be a valid PDF") := by
  have hmime' : ¬ (file.mimeType ≠ "application/pdf") := by simp [hmime]
  by_cases h1 : MAX_SIZE < file.size
  · have he : (validatePDF file).error = some "File size exceeds 50MB limit" := by
      unfold validatePDF
      rw [if_neg hmime', if_pos h1]
    have h1' : 50 * 1024 * 1024 < file.size := h1
    refine ⟨iff_of_true he h1', iff_of_false (by rw [he]; decide) (by omega),
      fun hb => ?_⟩
    exfalso
    rcases hb with hb | hb <;> omega
  · by_cases h2 : file.size < 1024
    · have he : (validatePDF file).error = some "File is too small to be a valid PDF" := by
        unfold validatePDF
        rw [if_neg hmime', if_neg h1, if_pos h2]
      have h1' : ¬ 50 * 1024 * 1024 < file.size := h1
      refine ⟨iff_of_false (by rw [he]; decide) h1', iff_of_true he h2, fun hb => ?_⟩
      exfalso
      rcases hb with hb | hb <;> omega
    · have herr : (validatePDF file).error = none ∨
          (validatePDF file).error = some "Failed to read file" ∨
          (validatePDF file).error = some "File does not appear to be a valid PDF" := by
        unfold validatePDF
        rw [if_neg hmime', if_neg h1, if_neg h2]
        cases file.readBytes with
        | error e => simp
        | ok bytes =>
          by_cases hs : strStartsWith (String.mk (bytes.take 5)) "%PDF" = true
          · simp [hs]
          · simp [hs]
      have hne : (validatePDF file).error ≠ some "File size exceeds 50MB limit" ∧
          (validatePDF file).error ≠ some "File is too small to be a valid PDF" := by
        rcases herr with he | he | he <;> rw [he] <;> exact ⟨by decide, by decide⟩
      exact ⟨iff_of_false hne.1 h1, iff_of_false hne.2 h2, fun hb => hne⟩

/-- C2 witness: the theorem applied at a concrete declared PDF. -/
theorem c2_validate_size_bounds_witness :
    ((validatePDF w1fileGood).error = some "File size exceeds 50MB limit" ↔
      50 * 1024 * 1024 < w1fileGood.size) ∧
    ((validatePDF w1fileGood).error = some "File is too small to be a valid PDF" ↔
      w1fileGood.size < 1024) ∧
    (w1fileGood.size = 50 * 1024 * 1024 ∨ w1fileGood.size = 1024 →
      (validatePDF w1fileGood).error ≠ some "File size exceeds 50MB limit" ∧
      (validatePDF w1fileGood).error ≠ some "File is too small to be a valid PDF") :=
  c2_validate_size_bounds w1fileGood rfl

/-- C3 counterexample: `c3file` passes the MIME and size checks and its first
5 content bytes are `%PDF-`, which is not literally the 4-character string
`%PDF`; the claim as stated therefore demands a bad-signature rejection, yet
`validatePDF` accepts the file (the code only requires the signature string to
START with `%PDF`). -/
theorem c3_counterexample :
    c3file.mimeType = "application/pdf" ∧
    c3file.size ≤ MAX_SIZE ∧ 1024 ≤ c3file.size ∧
    c3file.readBytes = .ok pdfBytes ∧
    pdfBytes.take 5 = "%PDF-".data ∧
    String.mk (pdfBytes.take 5) ≠ "%PDF" ∧
    validatePDF c3file = { valid := true, error := none } :=
  ⟨rfl, by decide, by decide, rfl, by decide, by decide, by decide⟩

/-- C3 amended: for every file that passes the MIME and size checks,
`validatePDF` rejects with the bad-signature reason exactly when the content
bytes do not begin with the 4-byte signature `%PDF` (the fifth sliced byte is
unconstrained), and a failure of the byte-reading step itself is reported
with the distinct unreadable reason rather than as a bad signature. -/
theorem c3_signature_check (file : FFile)
    (hmime : file.mimeType = "application/pdf")
    (hmax : file.size ≤ MAX_SIZE) (hmin : 1024 ≤ file.size) :
    (∀ bytes : List Char, file.readBytes = .ok bytes →
      ((validatePDF file).error = some "File does not appear to be a valid PDF" ↔
        "%PDF".data.isPrefixOf bytes = false)) ∧
    (file.readBytes = .error () →
      validatePDF file = { valid := false, error := some "Failed to read file" }) := by
  have hmime' : ¬ (file.mimeType ≠ "application/pdf") := by simp [hmime]
  have hmax' : ¬ (MAX_SIZE < file.size) := Nat.not_lt.mpr hmax
  have hmin' : ¬ (file.size < 1024) := Nat.not_lt.mpr hmin
  constructor
  · intro bytes hb
    have hsw : strStartsWith (String.mk (bytes.take 5)) "%PDF" =
        "%PDF".data.isPrefixOf bytes :=
      isPrefixOf_take "%PDF".data bytes 5 (by decide)
    have hred : validatePDF file =
        if strStartsWith (String.mk (bytes.take 5)) "%PDF" then
          { valid := true, error := none }
        else { valid := false, error := some "File does not appear to be a valid PDF" } := by
      unfold validatePDF
      rw [if_neg hmime', if_neg hmax', if_neg hmin', hb]
    rw [hred, hsw]
    cases hpre : "%PDF".data.isPrefixOf bytes
    · simp
    · simp
  · intro hb
    unfold validatePDF
    rw [if_neg hmime', if_neg hmax', if_neg hmin', hb]

/-- C3 witness for the amended statement, at a passing file and an
unreadable file. -/
theorem c3_signature_check_witness :
    ((validatePDF w1fileGood).error = some "File does not appear to be a valid PDF" ↔
      "%PDF".data.isPrefixOf pdfBytes = false) ∧
    validatePDF w1fileUnreadable =
      { valid := false, error := some "Failed to read file" } :=
  ⟨(c3_signature_check w1fileGood rfl (by decide) (by decide)).1 pdfBytes rfl,
   (c3_signature_check w1fileUnreadable rfl (by decide) (by decide)).2 rfl⟩

/-- C4: `classify` lower-cases the filename and returns the document type of
the first matching rule in the fixed priority order, defaulting to `TDS` when
no rule matches, and the returned display name is the fixed label of the
resolved type; the three fixture filenames classify as the claim states. -/
theorem c4_classifier (filename : String) :
    (∀ t : DocumentType, extractDocumentName filename t = typeMap t) ∧
    ((strIncludes (strToLower filename) "tds"
        || strIncludes (strToLower filename) "technical data") = true →
      classify filename = (.TDS, "Technical Data Sheet")) ∧
    ((strIncludes (strToLower filename) "tds"
        || strIncludes (strToLower filename) "technical data") = false →
      (strIncludes (strToLower filename) "esr"
        || strIncludes (strToLower filename) "evaluation report") = true →
      classify filename = (.ESR, "Evaluation Report")) ∧
    ((strIncludes (strToLower filename) "tds"
        || strIncludes (strToLower filename) "technical data") = false →
      (strIncludes (strToLower filename) "esr"
        || strIncludes (strToLower filename) "evaluation report") = false →
      (strIncludes (strToLower filename) "msds"
        || strIncludes (strToLower filename) "safety data") = true →
      classify filename = (.MSDS, "Material Safety Data Sheet")) ∧
    ((strIncludes (strToLower filename) "tds"
        || strIncludes (strToLower filename) "technical data") = false →
      (strIncludes (strToLower filename) "esr"
        || strIncludes (strToLower filename) "evaluation report") = false →
      (strIncludes (strToLower filename) "msds"
        || strIncludes (strToLower filename) "safety data") = false →
      strIncludes (strToLower filename) "leed" = true →
      classify filename = (.LEED, "LEED Credit Guide")) ∧
    ((strIncludes (strToLower filename) "tds"
        || strIncludes (strToLower filename) "technical data") = false →
      (strIncludes (strToLower filename) "esr"
        || strIncludes (strToLower filename) "evaluation report") = false →
      (strIncludes (strToLower filename) "msds"
        || strIncludes (strToLower filename) "safety data") = false →
      strIncludes (strToLower filename) "leed" = false →
      (strIncludes (strToLower filename) "installation"
        || strIncludes (strToLower filename) "install") = true →
      classify filename = (.Installation, "Installation Guide")) ∧
    ((strIncludes (strToLower filename) "tds"
        || strIncludes (strToLower filename) "technical data") = false →
      (strIncludes (strToLower filename) "esr"
        || strIncludes (strToLower filename) "evaluation report") = false →
      (strIncludes (strToLower filename) "msds"
        || strIncludes (strToLower filename) "safety data") = false →
      strIncludes (strToLower filename) "leed" = false →
      (strIncludes (strToLower filename) "installation"
        || strIncludes (strToLower filename) "install") = false →
      strIncludes (strToLower filename) "warranty" = true →
      classify filename = (.warranty, "Limited Warranty")) ∧
    ((strIncludes (strToLower filename) "tds"
        || strIncludes (strToLower filename) "technical data") = false →
      (strIncludes (strToLower filename) "esr"
        || strIncludes (strToLower filename) "evaluation report") = false →
      (strIncludes (strToLower filename) "msds"
        || strIncludes (strToLower filename) "safety data") = false →
      strIncludes (strToLower filename) "leed" = false →
      (strIncludes (strToLower filename) "installation"
        || strIncludes (strToLower filename) "install") = false →
      strIncludes (strToLower filename) "warranty" = false →
      (strIncludes (strToLower filename) "acoustic"
        || strIncludes (strToLower filename) "esl") = true →
      classify filename = (.Acoustic, "Acoustical Performance")) ∧
    ((strIncludes (strToLower filename) "tds"
        || strIncludes (strToLower filename) "technical data") = false →
      (strIncludes (strToLower filename) "esr"
        || strIncludes (strToLower filename) "evaluation report") = false →
      (strIncludes (strToLower filename) "msds"
        || strIncludes (strToLower filename) "safety data") = false →
      strIncludes (strToLower filename) "leed" = false →
      (strIncludes (strToLower filename) "installation"
        || strIncludes (strToLower filename) "install") = false →
      strIncludes (strToLower filename) "warranty" = false →
      (strIncludes (strToLower filename) "acoustic"
        || strIncludes (strToLower filename) "esl") = false →
      (strIncludes (strToLower filename) "spec"
        || strIncludes (strToLower filename) "3-part") = true →
      classify filename = (.PartSpec, "3-Part Specifications")) ∧
    ((strIncludes (strToLower filename) "tds"
        || strIncludes (strToLower filename) "technical data") = false →
      (strIncludes (strToLower filename) "esr"
        || strIncludes (strToLower filename) "evaluation report") = false →
      (strIncludes (strToLower filename) "msds"
        || strIncludes (strToLower filename) "safety data") = false →
      strIncludes (strToLower filename) "leed" = false →
      (strIncludes (strToLower filename) "installation"
        || strIncludes (strToLower filename) "install") = false →
      strIncludes (strToLower filename) "warranty" = false →
      (strIncludes (strToLower filename) "acoustic"
        || strIncludes (strToLower filename) "esl") = false →
      (strIncludes (strToLower filename) "spec"
        || strIncludes (strToLower filename) "3-part") = false →
      classify filename = (.TDS, "Technical Data Sheet")) ∧
    classify "Product-TDS-sheet.pdf" = (.TDS, "Technical Data Sheet") ∧
    classify "install-guide-v2.PDF" = (.Installation, "Installation Guide") ∧
    classify "randomfile.pdf" = (.TDS, "Technical Data Sheet") := by
  have hlabel : ∀ t : DocumentType, extractDocumentName filename t = typeMap t := by
    intro t
    cases t <;> rfl
  refine ⟨hlabel, ?_, ?_, ?_, ?_, ?_, ?_, ?_, ?_, ?_, by decide, by decide, by decide⟩
  all_goals intros
  all_goals (
    first
    | (have hd : detectDocumentType filename = .TDS := by
        simp only [detectDocumentType]
        simp [*]
       simp only [classify, hd, hlabel]
       rfl)
    | (have hd : detectDocumentType filename = .ESR := by
        simp only [detectDocumentType]
        simp [*]
       simp only [classify, hd, hlabel]
       rfl)
    | (have hd : detectDocumentType filename = .MSDS := by
        simp only [detectDocumentType]
        simp [*]
       simp only [classify, hd, hlabel]
       rfl)
    | (have hd : detectDocumentType filename = .LEED := by
        simp only [detectDocumentType]
        simp [*]
       simp only [classify, hd, hlabel]
       rfl)
    | (have hd : detectDocumentType filename = .Installation := by
        simp only [detectDocumentType]
        simp [*]
       simp only [classify, hd, hlabel]
       rfl)
    | (have hd : detectDocumentType filename = .warranty := by
        simp only [detectDocumentType]
        simp [*]
       simp only [classify, hd, hlabel]
       rfl)
    | (have hd : detectDocumentType filename = .Acoustic := by
        simp only [detectDocumentType]
        simp [*]
       simp only [classify, hd, hlabel]
       rfl)
    | (have hd : detectDocumentType filename = .PartSpec := by
        simp only [detectDocumentType]
        simp [*]
       simp only [classify, hd, hlabel]
       rfl))

/-- C4 witness: one concrete filename per priority rule, plus the default. -/
theorem c4_classifier_witness :
    extractDocumentName "x-tds" DocumentType.TDS = typeMap DocumentType.TDS ∧
    classify "x-tds" = (.TDS, "Technical Data Sheet") ∧
    classify "x-esr" = (.ESR, "Evaluation Report") ∧
    classify "x-msds" = (.MSDS, "Material Safety Data Sheet") ∧
    classify "x-leed" = (.LEED, "LEED Credit Guide") ∧
    classify "x-install" = (.Installation, "Installation Guide") ∧
    classify "x-warranty" = (.warranty, "Limited Warranty") ∧
    classify "x-acoustic" = (.Acoustic, "Acoustical Performance") ∧
    classify "x-3-part" = (.PartSpec, "3-Part Specifications") ∧
    classify "zzz" = (.TDS, "Technical Data Sheet") :=
  ⟨(c4_classifier "x-tds").1 .TDS,
   (c4_classifier "x-tds").2.1 (by decide),
   (c4_classifier "x-esr").2.2.1 (by decide) (by decide),
   (c4_classifier "x-msds").2.2.2.1 (by decide) (by decide) (by decide),
   (c4_classifier "x-leed").2.2.2.2.1 (by decide) (by decide) (by decide) (by decide),
   (c4_classifier "x-install").2.2.2.2.2.1 (by decide) (by decide) (by decide)
     (by decide) (by decide),
   (c4_classifier "x-warranty").2.2.2.2.2.2.1 (by decide) (by decide) (by decide)
     (by decide) (by decide) (by decide),
   (c4_classifier "x-acoustic").2.2.2.2.2.2.2.1 (by decide) (by decide) (by decide)
     (by decide) (by decide) (by decide) (by decide),
   (c4_classifier "x-3-part").2.2.2.2.2.2.2.2.1 (by decide) (by decide) (by decide)
     (by decide) (by decide) (by decide) (by decide) (by decide),
   (c4_classifier "zzz").2.2.2.2.2.2.2.2.2.1 (by decide) (by decide) (by decide)
     (by decide) (by decide) (by decide) (by decide) (by decide)⟩

/-- C5: `updateDocument` on a present identifier succeeds, merges the
provided fields over the existing record, and re-asserts the identifier,
product category and content reference from the existing record — any
caller-supplied `id`, `productType` or `url` override is ignored. -/
theorem c5_update_protected_fields (docs : Store) (id : String) (u : UpdatePayload)
    (existing : Document) (h : mapGet docs id = some existing) :
    ∃ docs', updateDocument docs id u = (.ok (), docs') ∧
      mapGet docs' id = some
        { id := existing.id,
          name := u.name.getD existing.name,
          description := u.description.getD existing.description,
          filename := u.filename.getD existing.filename,
          url := existing.url,
          size := u.size.getD existing.size,
          type := u.type.getD existing.type,
          required := u.required.getD existing.required,
          products := u.products.getD existing.products,
          productType := existing.productType } := by
  refine ⟨_, ?_, mapGet_mapSet_self docs id _⟩
  unfold updateDocument
  rw [h]
  rfl

/-- C5 witness: an update explicitly supplying a different `id`, `url` and
`productType` leaves all three at their pre-call values while the supplied
`name` lands. -/
theorem c5_update_protected_fields_witness :
    ∃ docs', updateDocument sampleStore "doc_1" w5payload = (.ok (), docs') ∧
      mapGet docs' "doc_1" = some
        { id := "doc_1",
          name := "Renamed",
          description := "TDS Document",
          filename := "a-tds.pdf",
          url := "data:application/pdf;base64,QUJD",
          size := 2048,
          type := .TDS,
          required := false,
          products := [],
          productType := "structural-floor" } :=
  c5_update_protected_fields sampleStore "doc_1" w5payload sampleDoc rfl

/-- C6: deleting an absent identifier fails with the not-found error and
leaves the store unchanged; after a successful delete, a second delete of the
same identifier fails with the not-found error and leaves the store in the
state reached after the first delete alone. -/
theorem c6_delete_idempotence (docs : Store) (id : String)
    (hnd : (keys docs).Nodup) :
    (mapGet docs id = none →
      deleteDocument docs id = (.error "Document not found", docs)) ∧
    (∀ docs1, deleteDocument docs id = (.ok (), docs1) →
      deleteDocument docs1 id = (.error "Document not found", docs1)) := by
  constructor
  · intro h
    unfold deleteDocument
    rw [h]
    simp
  · intro docs1 h
    have hsome : (mapGet docs id).isSome := by
      by_contra hn
      unfold deleteDocument at h
      rw [if_neg hn] at h
      exact absurd (congrArg Prod.fst h) (by simp)
    have hd : docs1 = mapDelete docs id := by
      unfold deleteDocument at h
      rw [if_pos hsome] at h
      exact (congrArg Prod.snd h).symm
    have hget : mapGet docs1 id = none := by
      rw [hd]
      exact mapGet_mapDelete_self hnd id
    unfold deleteDocument
    rw [hget]
    simp

/-- C6 witness: a delete of an absent identifier, and a second delete after a
successful one, both concrete. -/
theorem c6_delete_idempotence_witness :
    deleteDocument sampleStore "missing" = (.error "Document not found", sampleStore) ∧
    deleteDocument (mapDelete sampleStore "doc_1") "doc_1" =
      (.error "Document not found", mapDelete sampleStore "doc_1") :=
  ⟨(c6_delete_idempotence sampleStore "missing" (by decide)).1 rfl,
   (c6_delete_idempotence sampleStore "doc_1" (by decide)).2
     (mapDelete sampleStore "doc_1") rfl⟩

/-- C7 counterexample: a store operation whose durable write fails — a
successful delete over a failing `localStorage.setItem` — logs the failure
but still completes successfully, and no exception reaches the caller; the
claim as stated requires the persistence failure to be re-thrown. -/
theorem c7_counterexample :
    (deleteDocumentWithPersistence sampleStore "doc_1" .failure).1.1 = .ok () ∧
    (deleteDocumentWithPersistence sampleStore "doc_1" .failure).2 =
      { logged := true, thrown := none } ∧
    (saveToLocalStorage .failure).thrown = none ∧
    (loadFromLocalStorage (some (.error ()))).2 = { logged := true, thrown := none } :=
  ⟨rfl, rfl, rfl, rfl⟩

/-- C7 amended: a durable-storage write or read failure during a Store
operation is logged and swallowed — the operation's result and in-memory
state are exactly as if persistence had succeeded, and nothing is re-thrown
to the caller; a load failure is likewise logged and not thrown. -/
theorem c7_persistence_swallowed (docs : Store) (id : String)
    (writeOutcome : StorageOutcome)
    (stored : Option (Except Unit (List Document))) :
    (deleteDocumentWithPersistence docs id writeOutcome).1 = deleteDocument docs id ∧
    (deleteDocumentWithPersistence docs id writeOutcome).2.thrown = none ∧
    (saveToLocalStorage writeOutcome).thrown = none ∧
    ((saveToLocalStorage writeOutcome).logged = true ↔ writeOutcome = .failure) ∧
    (loadFromLocalStorage stored).2.thrown = none ∧
    ((loadFromLocalStorage stored).2.logged = true ↔ stored = some (.error ())) := by
  refine ⟨?_, ?_, ?_, ?_, ?_, ?_⟩
  · unfold deleteDocumentWithPersistence
    rcases hd : deleteDocument docs id with ⟨r, rest⟩
    cases r <;> simp
  · unfold deleteDocumentWithPersistence
    rcases hd : deleteDocument docs id with ⟨r, rest⟩
    cases r
    · rfl
    · cases writeOutcome <;> rfl
  · cases writeOutcome <;> rfl
  · cases writeOutcome <;> simp [saveToLocalStorage]
  · cases stored with
    | none => rfl
    | some r => cases r <;> rfl
  · cases stored with
    | none => simp [loadFromLocalStorage]
    | some r => cases r <;> simp [loadFromLocalStorage]

/-- C8: `exportDocumentAsBase64` returns the record's content as an inline
base64 payload when the record is present and its content is obtainable —
splitting an already-inline `data:` reference directly, fetching a remote
reference otherwise — and returns the absence signal `null`, without
throwing, when the record is absent, its content reference is empty, or the
remote fetch fails. -/
theorem c8_export_encoded_payload (docs : Store) (id : String)
    (fetchOutcome : Except Unit String)
    (readerOutcome : String → Except Unit String) :
    (mapGet docs id = none →
      exportDocumentAsBase64 docs id fetchOutcome readerOutcome = .ok none) ∧
    (∀ doc, mapGet docs id = some doc → doc.url = "" →
      exportDocumentAsBase64 docs id fetchOutcome readerOutcome = .ok none) ∧
    (∀ doc payload, mapGet docs id = some doc →
      strStartsWith doc.url "data:" = true → splitComma1 doc.url = some payload →
      exportDocumentAsBase64 docs id fetchOutcome readerOutcome = .ok (some payload)) ∧
    (∀ doc, mapGet docs id = some doc → doc.url ≠ "" →
      strStartsWith doc.url "data:" = false → fetchOutcome = .error () →
      exportDocumentAsBase64 docs id fetchOutcome readerOutcome = .ok none) ∧
    (∀ doc blob dataURL payload, mapGet docs id = some doc → doc.url ≠ "" →
      strStartsWith doc.url "data:" = false → fetchOutcome = .ok blob →
      readerOutcome blob = .ok dataURL → splitComma1 dataURL = some payload →
      exportDocumentAsBase64 docs id fetchOutcome readerOutcome = .ok (some payload)) := by
  refine ⟨fun h => ?_, fun doc h hu => ?_, fun doc payload h hstart hsplit => ?_,
    fun doc h hu hstart hf => ?_, fun doc blob dataURL payload h hu hstart hf hr hsplit => ?_⟩
  · simp [exportDocumentAsBase64, h]
  · simp [exportDocumentAsBase64, h, hu]
  · have hune : ¬ doc.url = "" := by
      intro hu
      rw [hu] at hstart
      exact absurd hstart (by decide)
    simp [exportDocumentAsBase64, h, hune, hstart, hsplit]
  · simp [exportDocumentAsBase64, h, hu, hstart, hf]
  · simp [exportDocumentAsBase64, h, hu, hstart, hf, hr, hsplit]

/-- C8 witness: the absent, empty-reference, inline, failing-fetch and
successful-fetch cases at concrete stores and outcomes. -/
theorem c8_export_encoded_payload_witness :
    exportDocumentAsBase64 w8store "nope" (.error ()) (fun _ => .error ()) = .ok none ∧
    exportDocumentAsBase64 w8store "doc_empty" (.error ()) (fun _ => .error ()) = .ok none ∧
    exportDocumentAsBase64 w8store "doc_1" (.error ()) (fun _ => .error ()) =
      .ok (some "QUJD") ∧
    exportDocumentAsBase64 w8store "doc_remote" (.error ()) (fun _ => .error ()) = .ok none ∧
    exportDocumentAsBase64 w8store "doc_remote" (.ok "blobdata")
      (fun _ => .ok "data:application/pdf;base64,RFJG") = .ok (some "RFJG") :=
  ⟨(c8_export_encoded_payload w8store "nope" (.error ()) (fun _ => .error ())).1 rfl,
   (c8_export_encoded_payload w8store "doc_empty" (.error ()) (fun _ => .error ())).2.1
     _ rfl rfl,
   (c8_export_encoded_payload w8store "doc_1" (.error ()) (fun _ => .error ())).2.2.1
     _ "QUJD" rfl (by decide) (by decide),
   (c8_export_encoded_payload w8store "doc_remote" (.error ()) (fun _ => .error ())).2.2.2.1
     _ rfl (by decide) (by decide) rfl,
   (c8_export_encoded_payload w8store "doc_remote" (.ok "blobdata")
       (fun _ => .ok "data:application/pdf;base64,RFJG")).2.2.2.2
     _ "blobdata" "data:application/pdf;base64,RFJG" "RFJG" rfl (by decide) (by decide)
     rfl rfl (by decide)⟩

theorem uploadDocument_ok {docs : Store} {file : FFile} {productType genId : String}
    {doc : Document} {docs' : Store}
    (h : uploadDocument docs file productType genId = (.ok doc, docs')) :
    ∃ dataURL, file.readAsDataURL = .ok dataURL ∧
      doc = mkUploadDoc file productType genId dataURL ∧
      docs' = mapSet docs doc.id doc := by
  unfold uploadDocument at h
  by_cases hv : (validatePDF file).valid = false
  · rw [if_pos hv] at h
    exact absurd (congrArg Prod.fst h) (by simp)
  · rw [if_neg hv] at h
    cases hr : file.readAsDataURL with
    | error e =>
      rw [hr] at h
      exact absurd (congrArg Prod.fst h) (by simp)
    | ok dataURL =>
      rw [hr] at h
      have hfst : Except.ok (mkUploadDoc file productType genId dataURL) =
          Except.ok doc := congrArg Prod.fst h
      have hdoc : mkUploadDoc file productType genId dataURL = doc :=
        Except.ok.inj hfst
      have hsnd : mapSet docs (mkUploadDoc file productType genId dataURL).id
          (mkUploadDoc file productType genId dataURL) = docs' := congrArg Prod.snd h
      refine ⟨dataURL, rfl, hdoc.symm, ?_⟩
      rw [← hsnd, hdoc]

/-- C9: a successful upload stores under the returned identifier exactly the
record it returns, so an immediate `getDocument` yields a record equal to the
created one; every caller-derived field of the returned record agrees with
its derivation from the uploaded file and category. -/
theorem c9_upload_get_roundtrip (docs : Store) (file : FFile) (productType : String)
    (genId : String) (doc : Document) (docs' : Store)
    (h : uploadDocument docs file productType genId = (.ok doc, docs')) :
    getDocument docs' doc.id = some doc ∧
    doc.name = extractDocumentName file.name (detectDocumentType file.name) ∧
    doc.description = docTypeStr (detectDocumentType file.name) ++ " Document" ∧
    doc.filename = file.name ∧
    doc.size = file.size ∧
    doc.type = detectDocumentType file.name ∧
    doc.required = false ∧
    doc.products = [] ∧
    doc.productType = productType := by
  obtain ⟨dataURL, hr, hdoc, hdocs⟩ := uploadDocument_ok h
  subst hdoc
  subst hdocs
  exact ⟨mapGet_mapSet_self docs _ _, rfl, rfl, rfl, rfl, rfl, rfl, rfl, rfl⟩

/-- C9 witness: a concrete accepted upload into the empty store, read back. -/
theorem c9_upload_get_roundtrip_witness :
    getDocument (mapSet [] w9doc.id w9doc) w9doc.id = some w9doc ∧
    w9doc.name = extractDocumentName w1fileGood.name (detectDocumentType w1fileGood.name) ∧
    w9doc.description = docTypeStr (detectDocumentType w1fileGood.name) ++ " Document" ∧
    w9doc.filename = w1fileGood.name ∧
    w9doc.size = w1fileGood.size ∧
    w9doc.type = detectDocumentType w1fileGood.name ∧
    w9doc.required = false ∧
    w9doc.products = [] ∧
    w9doc.productType = "underlayment" :=
  c9_upload_get_roundtrip [] w1fileGood "underlayment" "doc_9" w9doc
    (mapSet [] w9doc.id w9doc) rfl

/-- C10: in every store state reachable by loading a persisted snapshot and
then applying any sequence of create, update and delete operations, each
entry's key equals the `id` field of the record stored under it, and
consequently a `get` at that `id` returns exactly that record. -/
theorem c10_store_key_invariant (stored : Option (Except Unit (List Document)))
    (ops : List StoreOp) (p : String × Document)
    (hp : p ∈ applyOps (loadFromLocalStorage stored).1 ops) :
    p.1 = p.2.id ∧
    mapGet (applyOps (loadFromLocalStorage stored).1 ops) p.2.id = some p.2 := by
  have hinv : StoreInv (applyOps (loadFromLocalStorage stored).1 ops) :=
    storeInv_applyOps (storeInv_load stored) ops
  have hkey : p.1 = p.2.id := hinv.2 p hp
  refine ⟨hkey, ?_⟩
  have hpe : (p.2.id, p.2) = p := by
    rw [← hkey]
  exact mapGet_eq_some_of_mem hinv.1 (hpe ▸ hp)

/-- C10 witness: a snapshot of one record, a failing delete applied on top,
and the keyed lookup of the surviving entry. -/
theorem c10_store_key_invariant_witness :
    ("doc_1", sampleDoc).1 = ("doc_1", sampleDoc).2.id ∧
    mapGet (applyOps (loadFromLocalStorage (some (.ok [sampleDoc]))).1
        [StoreOp.delete "ghost"]) ("doc_1", sampleDoc).2.id =
      some ("doc_1", sampleDoc).2 :=
  c10_store_key_invariant (some (.ok [sampleDoc])) [StoreOp.delete "ghost"]
    ("doc_1", sampleDoc) (by decide)

end PdfPacket
